import Mathlib

/-!
# Strategy normalisation, inclusion predicate and ARBITRUM record of ydaemon

A shallow embedding of `src/external/vaults/models.strategies.go`:

* `TExternalStrategyDetails`, `TExternalStrategy` : the two Go structs, with the
  JSON object their `json` tags describe for the detail block;
* `CreateExternalStrategy` : the conversion from the internal strategy model;
* `ShouldBeIncluded` : the keyword-driven inclusion predicate;

and of `src/common/env/chain.arbitrum.go`:

* `env.ARBITRUM` : the configuration record of the Arbitrum network.

Go pointers are `Option`s (`none` is the nil pointer).  A Go function that can
stop on a nil-pointer dereference returns `Option`, with `none` for the panic.
`uint64` values are natural numbers, reduced modulo `2 ^ 64` where they are
produced.
-/

namespace Ydaemon

/-! ## Collaborators that are not part of the two source files -/

/-- A go-ethereum `common.Address`: twenty bytes, kept as the big-endian number
they spell. -/
structure Address where
  value : Nat
deriving DecidableEq, Repr

namespace bigNumber

/-- Modelled from the spec: the package `common/bigNumber` is not among the
source files.  The spec calls its values arbitrary-precision integers; the Go
type wraps the signed `big.Int`, and the fields that hold it are pointers, so an
absent value is `none`. -/
abbrev BigInt := Option Int

/-- Modelled from the spec: `bigNumber.Zero`, the number zero. -/
def Zero : BigInt := some 0

/-- Modelled from the spec: the number a possibly absent value stands for;
"absent optional fields default to empty/zero". -/
def toInt (b : BigInt) : Int :=
  match b with
  | none => 0
  | some n => n

/-- Modelled from the spec: `(*Int).IsZero` ("total debt equals exactly zero"),
never failing, an absent value counting as zero. -/
def IsZero (b : BigInt) : Bool :=
  decide (toInt b = 0)

/-- Modelled from the spec: `(*Int).Gt` ("strictly greater than"), never
failing, an absent value counting as zero. -/
def Gt (b y : BigInt) : Bool :=
  decide (toInt y < toInt b)

/-- Modelled from the spec: `(*Int).Uint64`, the narrowing to an unsigned
64-bit integer.  It does not validate the magnitude: like `big.Int.Uint64` it
keeps the low 64 bits of the absolute value. -/
def Uint64 (b : BigInt) : Nat :=
  (toInt b).natAbs % 2 ^ 64

end bigNumber

namespace models

/-- Modelled from the spec: the constant `models.StrategyStatusNotActive`. -/
def StrategyStatusNotActive : String := "not_active"

/-- Modelled from the spec: the constant `models.StrategyStatusUnallocated`. -/
def StrategyStatusUnallocated : String := "unallocated"

/-- Modelled from the spec: the constant `models.StrategyStatusActive`. -/
def StrategyStatusActive : String := "active"

/-- Modelled from the spec: the fields of `models.TStrategy` (the raw strategy
observation) that `CreateExternalStrategy` reads.  The struct is declared in
`internal/models`, which is not among the source files. -/
structure TStrategy where
  Address : Address
  Name : String
  DisplayName : String
  Description : String
  Status : String
  IsRetired : Bool
  IsInQueue : Bool
  NetAPR : Float
  LastTotalDebt : bigNumber.BigInt
  LastTotalLoss : bigNumber.BigInt
  LastTotalGain : bigNumber.BigInt
  LastPerformanceFee : bigNumber.BigInt
  LastReport : bigNumber.BigInt
  LastDebtRatio : bigNumber.BigInt

end models

/-! ## `models.strategies.go` -/

/-- The Go struct `TExternalStrategyDetails`. -/
structure TExternalStrategyDetails where
  TotalDebt : bigNumber.BigInt
  TotalLoss : bigNumber.BigInt
  TotalGain : bigNumber.BigInt
  PerformanceFee : Nat
  LastReport : Nat
  DebtRatio : Nat
  InQueue : Bool
deriving DecidableEq

/-- The Go struct `TExternalStrategy`; `Details` is a pointer. -/
structure TExternalStrategy where
  Address : String
  Name : String
  Description : String
  Status : String
  NetAPR : Float
  Details : Option TExternalStrategyDetails

/-- The Go function `CreateExternalStrategy`.  `hex` is go-ethereum's
`Address.Hex`, taken as a parameter. -/
def CreateExternalStrategy (hex : Address → String) (strategy : models.TStrategy) :
    TExternalStrategy :=
  let name := strategy.DisplayName
  let name := if name = "" then strategy.Name else name
  let status := strategy.Status
  let status :=
    if status = "" then
      if strategy.IsRetired then
        models.StrategyStatusNotActive
      else if bigNumber.IsZero strategy.LastTotalDebt then
        models.StrategyStatusUnallocated
      else
        models.StrategyStatusActive
    else
      status
  { Address := hex strategy.Address
    Name := name
    Description := strategy.Description
    Status := status
    NetAPR := strategy.NetAPR
    Details := some
      { TotalDebt := strategy.LastTotalDebt
        TotalLoss := strategy.LastTotalLoss
        TotalGain := strategy.LastTotalGain
        PerformanceFee := bigNumber.Uint64 strategy.LastPerformanceFee
        LastReport := bigNumber.Uint64 strategy.LastReport
        DebtRatio := bigNumber.Uint64 strategy.LastDebtRatio
        InQueue := strategy.IsInQueue } }

/-- Go's short-circuit `a && b` where evaluating `b` may panic: `b` is looked at
only when `a` holds. -/
def andThen (a : Bool) (b : Option Bool) : Option Bool :=
  if a then b else some false

/-- Reading `v.Details.f` in Go: a panic when `Details` is nil. -/
def readDetails (v : TExternalStrategy) (f : TExternalStrategyDetails → Bool) : Option Bool :=
  match v.Details with
  | none => none
  | some d => some (f d)

/-- The Go method `TExternalStrategy.ShouldBeIncluded`; `none` is the panic of
reading a field of a nil `Details`. -/
def ShouldBeIncluded (v : TExternalStrategy) (condition : String) : Option Bool :=
  if condition = "all" then
    some true
  else
    match andThen (decide (condition = "absolute"))
        (readDetails v fun d => bigNumber.Gt d.TotalDebt bigNumber.Zero) with
    | none => none
    | some true => some true
    | some false =>
      match andThen (decide (condition = "inQueue")) (readDetails v fun d => d.InQueue) with
      | none => none
      | some true => some true
      | some false =>
        match andThen (decide (condition = "debtRatio"))
            (readDetails v fun d => decide (d.DebtRatio > 0)) with
        | none => none
        | some true => some true
        | some false => some false

/-! ## JSON encoding of the detail block

The `json` struct tags of `TExternalStrategyDetails` are read the way Go's
`encoding/json` reads them.  A JSON object is the list of its members, in the
order of the struct fields. -/

/-- The JSON value of a field of the detail block.  `big n` is whatever the
marshaller of `bigNumber.Int` writes for the integer `n`; a nil pointer is
written as `null`. -/
inductive JSONValue where
  | null
  | bool (b : Bool)
  | number (n : Nat)
  | big (n : Int)
deriving DecidableEq, Repr

/-- The value written for a `*bigNumber.Int` field. -/
def JSONValue.ofBigInt (b : bigNumber.BigInt) : JSONValue :=
  match b with
  | none => JSONValue.null
  | some n => JSONValue.big n

/-- Go's `isEmptyValue` on these values: false, 0 and the nil pointer are
empty. -/
def isEmptyValue (v : JSONValue) : Bool :=
  match v with
  | JSONValue.null => true
  | JSONValue.bool b => !b
  | JSONValue.number n => n == 0
  | JSONValue.big _ => false

/-- A struct field as the encoder meets it: its Go name, the text of its `json`
tag and its value. -/
structure StructField where
  name : String
  tag : String
  value : JSONValue

/-- The pieces of a tag between its commas. -/
def splitComma (cs : List Char) : List (List Char) :=
  match cs with
  | [] => [[]]
  | c :: rest =>
    if c = ',' then
      [] :: splitComma rest
    else
      match splitComma rest with
      | [] => [[c]]
      | piece :: pieces => (c :: piece) :: pieces

/-- Go's `parseTag`: the name before the first comma, and the options after
it. -/
def parseTag (tag : String) : String × List String :=
  match splitComma tag.toList with
  | [] => ("", [])
  | name :: opts => (String.mk name, opts.map String.mk)

/-- The member the encoder writes for one field, if any: a field tagged `-` is
skipped, an `omitempty` field is skipped when its value is empty, and a field
is named by its tag, or by its Go name when the tag gives no name.  (Go also
falls back to the Go name when the tag name has a character it rejects; the tag
names of this struct are made of letters only.) -/
def marshalField (f : StructField) : Option (String × JSONValue) :=
  if f.tag = "-" then
    none
  else
    let (name, opts) := parseTag f.tag
    let name := if name = "" then f.name else name
    if opts.contains "omitempty" && isEmptyValue f.value then
      none
    else
      some (name, f.value)

/-- The fields of `TExternalStrategyDetails` with their tags (source lines
24-30). -/
def TExternalStrategyDetails.fields (d : TExternalStrategyDetails) : List StructField :=
  [ { name := "TotalDebt", tag := "totalDebt", value := JSONValue.ofBigInt d.TotalDebt },
    { name := "TotalLoss", tag := "totalLoss", value := JSONValue.ofBigInt d.TotalLoss },
    { name := "TotalGain", tag := "totalGain", value := JSONValue.ofBigInt d.TotalGain },
    { name := "PerformanceFee", tag := "performanceFee",
      value := JSONValue.number d.PerformanceFee },
    { name := "LastReport", tag := "lastReport", value := JSONValue.number d.LastReport },
    { name := "DebtRatio", tag := "debtRatio,omitempty",
      value := JSONValue.number d.DebtRatio },
    { name := "InQueue", tag := "-", value := JSONValue.bool d.InQueue } ]

/-- The JSON object written for a detail block. -/
def TExternalStrategyDetails.marshalJSON (d : TExternalStrategyDetails) :
    List (String × JSONValue) :=
  d.fields.filterMap marshalField

/-! ## `chain.arbitrum.go`

The record `ARBITRUM` of package `env`.  The struct types it fills and the
helpers `common.HexToAddress` and `strconv.FormatUint` come from outside the
two source files. -/

namespace common

/-- The value of a hexadecimal digit, of either letter case. -/
def fromHexChar (c : Char) : Option Nat :=
  let n := c.toNat
  if 48 ≤ n ∧ n ≤ 57 then some (n - 48)
  else if 97 ≤ n ∧ n ≤ 102 then some (n - 87)
  else if 65 ≤ n ∧ n ≤ 70 then some (n - 55)
  else none

/-- Go's `hex.DecodeString` as `Hex2Bytes` uses it: the bytes spelled by the
pairs of digits, up to the first pair that is not hexadecimal. -/
def decodePairs (cs : List Char) : List Nat :=
  match cs with
  | a :: b :: rest =>
    match fromHexChar a, fromHexChar b with
    | some hi, some lo => (hi * 16 + lo) :: decodePairs rest
    | _, _ => []
  | _ => []

/-- go-ethereum's `FromHex`: drop a leading `0x` or `0X`, pad an odd number of
digits with a leading `0`, decode. -/
def FromHex (s : String) : List Nat :=
  let cs := s.toList
  let cs :=
    match cs with
    | a :: b :: rest => if a = '0' ∧ (b = 'x' ∨ b = 'X') then rest else cs
    | _ => cs
  let cs := if cs.length % 2 = 1 then '0' :: cs else cs
  decodePairs cs

/-- go-ethereum's `BytesToAddress`: the last twenty bytes, padded on the left
with zeros; the address is kept as the number these bytes spell. -/
def BytesToAddress (b : List Nat) : Address :=
  let b := if b.length > 20 then b.drop (b.length - 20) else b
  ⟨b.foldl (fun acc x => acc * 256 + x) 0⟩

/-- go-ethereum's `HexToAddress`. -/
def HexToAddress (s : String) : Address :=
  BytesToAddress (FromHex s)

end common

namespace strconv

/-- Go's `strconv.FormatUint`: the digits of `i` in the given base. -/
def FormatUint (i : Nat) (base : Nat) : String :=
  String.mk (Nat.toDigits base i)

end strconv

namespace models

/-- Modelled from the spec: the type tag of a token ("native vs. wrapped vs.
automated-vault"); the two tags the ARBITRUM record uses. -/
inductive TTokenType where
  | TokenTypeNative
  | TokenTypeAutomatedVault
deriving DecidableEq, Repr

/-- Modelled from the spec: the fields of `models.TERC20Token` that the ARBITRUM
record fills (the native coin description). -/
structure TERC20Token where
  Address : Ydaemon.Address
  UnderlyingTokensAddresses : List Ydaemon.Address
  Type_ : TTokenType
  Name : String
  Symbol : String
  DisplayName : String
  DisplaySymbol : String
  Description : String
  Icon : String
  Decimals : Nat
  ChainID : Nat
deriving DecidableEq

/-- Modelled from the spec: the fields of `models.TVaultsFromRegistry` that the
ARBITRUM record fills (an extra vault: address, owning registry, underlying
token, version, first-relevant block, type). -/
structure TVaultsFromRegistry where
  ChainID : Nat
  Address : Ydaemon.Address
  RegistryAddress : Ydaemon.Address
  TokenAddress : Ydaemon.Address
  APIVersion : String
  BlockNumber : Nat
  Type_ : TTokenType
deriving DecidableEq

end models

namespace env

/-- Modelled from the spec: `TContractData`, a contract with the block at which
it became relevant, and an optional version, tag and label (absent ones are
Go's zero values). -/
structure TContractData where
  Address : Ydaemon.Address
  Block : Nat
  Version : Nat := 0
  Tag : String := ""
  Label : String := ""
deriving DecidableEq

/-- Modelled from the spec: `TChainCurve`, the exchange registry and factory
with the pool and gauge listings. -/
structure TChainCurve where
  RegistryAddress : Ydaemon.Address
  FactoryAddress : Ydaemon.Address
  PoolsURIs : List String
  GaugesURI : String
deriving DecidableEq

/-- Modelled from the spec: `TChainExtraURI`, the protocol-specific auxiliary
endpoints. -/
structure TChainExtraURI where
  GammaMerklURI : String
  GammaHypervisorURI : List String
  PendleCoreURI : String
deriving DecidableEq

/-- Modelled from the spec: the fields of `TChain` that the ARBITRUM record
fills. -/
structure TChain where
  ID : Nat
  RpcURI : String
  SubgraphURI : String
  EtherscanURI : String
  MaxBlockRange : Nat
  MaxBatchSize : Nat
  AvgBlocksPerDay : Nat
  CanUseWebsocket : Bool
  LensContract : TContractData
  MulticallContract : TContractData
  PartnerContract : TContractData
  APROracleContract : TContractData
  StakingRewardRegistry : List TContractData
  Coin : models.TERC20Token
  Registries : List TContractData
  YearnXRegistries : List TContractData
  ExtraVaults : List models.TVaultsFromRegistry
  BlacklistedVaults : List Ydaemon.Address
  ExtraTokens : List Ydaemon.Address
  IgnoredTokens : List Ydaemon.Address
  Curve : TChainCurve
  ExtraURI : TChainExtraURI
deriving DecidableEq

/-- The value of Go's `math.MaxInt64`. -/
def MaxInt64 : Nat := 2 ^ 63 - 1

/-- The Go variable `ARBITRUM`.  The package constants `DEFAULT_COIN_ADDRESS`
and `BASE_ASSET_URL` are declared outside the two source files and are taken as
parameters, like go-ethereum's `Address.Hex`. -/
def ARBITRUM (hex : Address → String) (DEFAULT_COIN_ADDRESS : Address)
    (BASE_ASSET_URL : String) : TChain :=
  { ID := 42161
    RpcURI := "https://arbitrum.public-rpc.com"
    SubgraphURI := "https://api.thegraph.com/subgraphs/name/yearn/yearn-vaults-v2-arbitrum"
    EtherscanURI := "https://api.etherscan.io/v2/api"
    MaxBlockRange := 100000000
    MaxBatchSize := MaxInt64
    AvgBlocksPerDay := 320000
    CanUseWebsocket := false
    LensContract :=
      { Address := common.HexToAddress "0x043518AB266485dC085a1DB095B8d9C2Fc78E9b9"
        Block := 2396321 }
    MulticallContract :=
      { Address := common.HexToAddress "0x842eC2c7D803033Edf55E478F461FC547Bc54EB2"
        Block := 821923 }
    PartnerContract :=
      { Address := common.HexToAddress "0x0e5b46E4b2a05fd53F5a4cD974eb98a9a613bcb7"
        Block := 30385403 }
    APROracleContract :=
      { Address := common.HexToAddress "0x1981AD9F44F2EA9aDd2dC4AD7D075c102C70aF92"
        Block := 265347717 }
    StakingRewardRegistry :=
      [ { Address := common.HexToAddress "0x26d8EA1d8759d0F9abBcf8181b1fD5D3635daD69"
          Block := 226125838
          Tag := "V3 STAKING" } ]
    Coin :=
      { Address := DEFAULT_COIN_ADDRESS
        UnderlyingTokensAddresses := []
        Type_ := models.TTokenType.TokenTypeNative
        Name := "Arbitrum"
        Symbol := "ARB"
        DisplayName := "Arbitrum"
        DisplaySymbol := "ARB"
        Description := "Arbitrum is a Layer 2 scaling solution for Ethereum."
        Icon := BASE_ASSET_URL ++ strconv.FormatUint 42161 10 ++ "/"
          ++ hex DEFAULT_COIN_ADDRESS ++ "/logo-128.png"
        Decimals := 18
        ChainID := 42161 }
    Registries :=
      [ { Address := common.HexToAddress "0x3199437193625DCcD6F9C9e98BDf93582200Eb1f"
          Version := 2
          Block := 4841854
          Tag := "DISABLED"
          Label := "YEARN" },
        { Address := common.HexToAddress "0xff31A1B020c868F6eA3f61Eb953344920EeCA3af"
          Version := 4
          Block := 171850013
          Label := "YEARN" },
        { Address := common.HexToAddress "0x444045c5C13C246e117eD36437303cac8E250aB0"
          Version := 5
          Block := 187480878
          Label := "PUBLIC_ERC4626" },
        { Address := common.HexToAddress "0x770D0d1Fb036483Ed4AbB6d53c1C88fb277D812F"
          Version := 5
          Block := 269623414
          Tag := "STEALTH"
          Label := "PUBLIC_ERC4626" } ]
    YearnXRegistries :=
      [ { Address := common.HexToAddress "0x8020Fb37b21E0eF1707aDa7A914baf44F9045E52"
          Block := 20693634
          Label := "POOL_TOGETHER" } ]
    ExtraVaults :=
      [ { ChainID := 42161
          Address := common.HexToAddress "0x074943fEfE3391D033A15557dfa1b6f246Ce5fD0"
          RegistryAddress := common.HexToAddress "0xff31A1B020c868F6eA3f61Eb953344920EeCA3af"
          TokenAddress := common.HexToAddress "0xE11f9786B06438456b044B3E21712228ADcAA0D1"
          APIVersion := "3.0.2"
          BlockNumber := 195564702
          Type_ := models.TTokenType.TokenTypeAutomatedVault },
        { ChainID := 42161
          Address := common.HexToAddress "0x723a85b4554d79ed20e061efc64c5a6e04f196aa"
          RegistryAddress := common.HexToAddress "0xff31a1b020c868f6ea3f61eb953344920eeca3af"
          TokenAddress := common.HexToAddress "0xff970a61a04b1ca14834a43f5de4533ebddb5cc8"
          APIVersion := "3.0.2"
          BlockNumber := 223522463
          Type_ := models.TTokenType.TokenTypeAutomatedVault },
        { ChainID := 42161
          Address := common.HexToAddress "0x801c26fcfd916719631e0cf7d36ca1e049df0373"
          RegistryAddress := common.HexToAddress "0xff31a1b020c868f6ea3f61eb953344920eeca3af"
          TokenAddress := common.HexToAddress "0xfd086bc7cd5c481dcc9c85ebe478a1c0b69fcbb9"
          APIVersion := "3.0.1"
          BlockNumber := 183112450
          Type_ := models.TTokenType.TokenTypeAutomatedVault },
        { ChainID := 42161
          Address := common.HexToAddress "0x482cc95bc6c92d6254529dc2d45095663ae726a2"
          RegistryAddress := common.HexToAddress "0xff31a1b020c868f6ea3f61eb953344920eeca3af"
          TokenAddress := common.HexToAddress "0xff970a61a04b1ca14834a43f5de4533ebddb5cc8"
          APIVersion := "3.0.2"
          BlockNumber := 223522463
          Type_ := models.TTokenType.TokenTypeAutomatedVault } ]
    BlacklistedVaults :=
      [ common.HexToAddress "0x5796698A29F3626c9FE13C4d3d3dEE987c84EBB3",
        common.HexToAddress "0x976a1C749cd8153909e0B04EebE931eF8957b15b",
        common.HexToAddress "0xFa247d0D55a324ca19985577a2cDcFC383D87953" ]
    ExtraTokens :=
      [ common.HexToAddress "0x82e3A8F066a6989666b031d916c43672085b1582",
        common.HexToAddress "0x11cDb42B0EB46D95f990BeDD4695A6e3fA034978",
        common.HexToAddress "0xf0f326af3b1Ed943ab95C29470730CC8Cf66ae47" ]
    IgnoredTokens :=
      [ common.HexToAddress "0x5796698A29F3626c9FE13C4d3d3dEE987c84EBB3",
        common.HexToAddress "0x976a1C749cd8153909e0B04EebE931eF8957b15b",
        common.HexToAddress "0xFa247d0D55a324ca19985577a2cDcFC383D87953" ]
    Curve :=
      { RegistryAddress := common.HexToAddress "0x0000000022d53366457f9d5e68ec105046fc4383"
        FactoryAddress := ⟨0⟩
        PoolsURIs := ["https://api.curve.finance/api/getPools/all/arbitrum"]
        GaugesURI := "https://api.curve.finance/api/getAllGauges?blockchainId=arbitrum" }
    ExtraURI :=
      { GammaMerklURI := "https://api.angle.money/v2/merkl?chainIds%5B%5D=42161"
        GammaHypervisorURI := ["https://wire2.gamma.xyz/arbitrum/hypervisors/allData"]
        PendleCoreURI := "https://api-v2.pendle.finance/core/v1/42161" } }

end env

/-! ## Inputs used to exercise the definitions -/

/-- A stand-in for go-ethereum's `Address.Hex`, used where a concrete rendering
is needed. -/
def exampleHex : Address → String :=
  fun a => "0x" ++ toString a.value

/-- A raw observation with every optional field absent. -/
def emptyObservation : models.TStrategy :=
  { Address := ⟨0⟩
    Name := "StrategyCurve"
    DisplayName := ""
    Description := ""
    Status := ""
    IsRetired := false
    IsInQueue := false
    NetAPR := 0
    LastTotalDebt := none
    LastTotalLoss := none
    LastTotalGain := none
    LastPerformanceFee := none
    LastReport := none
    LastDebtRatio := none }

/-- A detail block with nothing allocated. -/
def zeroDetails : TExternalStrategyDetails :=
  { TotalDebt := some 0
    TotalLoss := some 0
    TotalGain := some 0
    PerformanceFee := 0
    LastReport := 0
    DebtRatio := 0
    InQueue := false }

/-- A canonical strategy carrying the detail block `d`, or none. -/
def strategyWith (d : Option TExternalStrategyDetails) : TExternalStrategy :=
  { Address := "0x0"
    Name := "StrategyCurve"
    Description := ""
    Status := "active"
    NetAPR := 0
    Details := d }

/-- A detail block whose total debt is the negative number `-1`. -/
def negativeDebtDetails : TExternalStrategyDetails :=
  { zeroDetails with TotalDebt := some (-1) }

/-- A detail block of a strategy that sits in the withdrawal queue. -/
def queuedDetails : TExternalStrategyDetails :=
  { zeroDetails with InQueue := true }

/-- A raw observation of a strategy that sits in the withdrawal queue. -/
def queuedObservation : models.TStrategy :=
  { emptyObservation with IsInQueue := true }

/-- A raw observation with a curated display name next to the declared one. -/
def curatedObservation : models.TStrategy :=
  { emptyObservation with DisplayName := "Curve Boost" }

/-- A raw observation with a report: a debt above `2 ^ 64`, a fee of 1000 basis
points, a report time and a debt ratio. -/
def reportedObservation : models.TStrategy :=
  { emptyObservation with
    LastTotalDebt := some (2 ^ 64 + 5)
    LastTotalLoss := some 3
    LastTotalGain := some (2 ^ 70)
    LastPerformanceFee := some 1000
    LastReport := some 1700000000
    LastDebtRatio := some 2500 }

/-- The extra vault of the ARBITRUM record deployed at block 183112450. -/
def earliestExtraVault : models.TVaultsFromRegistry :=
  { ChainID := 42161
    Address := common.HexToAddress "0x801c26fcfd916719631e0cf7d36ca1e049df0373"
    RegistryAddress := common.HexToAddress "0xff31a1b020c868f6ea3f61eb953344920eeca3af"
    TokenAddress := common.HexToAddress "0xfd086bc7cd5c481dcc9c85ebe478a1c0b69fcbb9"
    APIVersion := "3.0.1"
    BlockNumber := 183112450
    Type_ := models.TTokenType.TokenTypeAutomatedVault }

/-! ## Status resolution -/

/-- C1: when the raw observation carries a non-empty status override, the status
of the record built by `CreateExternalStrategy` is that override, whatever the
retired flag, the total debt and the other fields are. -/
theorem createExternalStrategy_status_override (hex : Address → String)
    (r : models.TStrategy) (h : r.Status ≠ "") :
    (CreateExternalStrategy hex r).Status = r.Status := by
  simp [CreateExternalStrategy, h]

theorem createExternalStrategy_status_override_witness :
    ({ emptyObservation with
        Status := "curated", IsRetired := true,
        LastTotalDebt := some 5 } : models.TStrategy).Status ≠ "" ∧
      (CreateExternalStrategy exampleHex
        { emptyObservation with
          Status := "curated", IsRetired := true, LastTotalDebt := some 5 }).Status
        = "curated" :=
  ⟨by decide, createExternalStrategy_status_override exampleHex _ (by decide)⟩

/-- C2: with an empty status override and the retired flag set, the status is
"not_active", whatever the total debt is (a positive one included). -/
theorem createExternalStrategy_status_retired (hex : Address → String)
    (r : models.TStrategy) (hs : r.Status = "") (hr : r.IsRetired = true) :
    (CreateExternalStrategy hex r).Status = "not_active" := by
  simp [CreateExternalStrategy, hs, hr, models.StrategyStatusNotActive]

theorem createExternalStrategy_status_retired_witness :
    ({ emptyObservation with
        IsRetired := true, LastTotalDebt := some 7 } : models.TStrategy).Status = "" ∧
      ({ emptyObservation with
        IsRetired := true, LastTotalDebt := some 7 } : models.TStrategy).IsRetired = true ∧
      (CreateExternalStrategy exampleHex
        { emptyObservation with IsRetired := true, LastTotalDebt := some 7 }).Status
        = "not_active" :=
  ⟨by decide, by decide, createExternalStrategy_status_retired exampleHex _ (by decide) (by decide)⟩

/-- C3: with an empty status override and the retired flag not set, the status
is "unallocated" when the total debt is exactly zero and "active" when the total
debt is greater than zero. -/
theorem createExternalStrategy_status_by_debt (hex : Address → String)
    (r : models.TStrategy) (n : Int) (hs : r.Status = "") (hr : r.IsRetired = false)
    (hd : r.LastTotalDebt = some n) :
    (n = 0 → (CreateExternalStrategy hex r).Status = "unallocated") ∧
      (0 < n → (CreateExternalStrategy hex r).Status = "active") := by
  constructor
  · intro h0
    simp [CreateExternalStrategy, hs, hr, hd, h0, bigNumber.IsZero, bigNumber.toInt,
      models.StrategyStatusUnallocated]
  · intro hpos
    have hne : n ≠ 0 := by omega
    simp [CreateExternalStrategy, hs, hr, hd, hne, bigNumber.IsZero, bigNumber.toInt,
      models.StrategyStatusActive]

theorem createExternalStrategy_status_by_debt_witness :
    ({ emptyObservation with LastTotalDebt := some 3 } : models.TStrategy).Status = "" ∧
      ({ emptyObservation with LastTotalDebt := some 3 } : models.TStrategy).IsRetired
        = false ∧
      ({ emptyObservation with LastTotalDebt := some 3 } : models.TStrategy).LastTotalDebt
        = some 3 ∧
      (CreateExternalStrategy exampleHex
        { emptyObservation with LastTotalDebt := some 3 }).Status = "active" :=
  ⟨by decide, by decide, by decide,
    (createExternalStrategy_status_by_debt exampleHex _ 3 (by decide) (by decide)
      (by decide)).2 (by decide)⟩

/-! ## The inclusion predicate -/

/-- With a detail block present, `ShouldBeIncluded` never stops: it returns the
disjunction the Go chain of tests computes. -/
theorem shouldBeIncluded_of_details (v : TExternalStrategy) (d : TExternalStrategyDetails)
    (c : String) (h : v.Details = some d) :
    ShouldBeIncluded v c = some
      (decide (c = "all")
        || (decide (c = "absolute") && bigNumber.Gt d.TotalDebt bigNumber.Zero)
        || (decide (c = "inQueue") && d.InQueue)
        || (decide (c = "debtRatio") && decide (d.DebtRatio > 0))) := by
  unfold ShouldBeIncluded readDetails andThen
  rw [h]
  by_cases h1 : c = "all"
  · simp [h1]
  · by_cases h2 : c = "absolute"
    · subst h2
      cases hg : bigNumber.Gt d.TotalDebt bigNumber.Zero <;> simp [hg]
    · by_cases h3 : c = "inQueue"
      · subst h3
        cases hq : d.InQueue <;> simp [hq]
      · by_cases h4 : c = "debtRatio"
        · subst h4
          by_cases hp : 0 < d.DebtRatio
          · simp [hp]
          · have hz : d.DebtRatio = 0 := by omega
            simp [hz]
        · simp [h1, h2, h3, h4]

/-- C4: for a canonical strategy with a detail block, `ShouldBeIncluded` returns
for "absolute", and what it returns is true exactly when the total debt held by
the detail block is strictly greater than zero. -/
theorem shouldBeIncluded_absolute_iff_pos (v : TExternalStrategy)
    (d : TExternalStrategyDetails) (n : Int) (h : v.Details = some d)
    (hd : d.TotalDebt = some n) :
    ShouldBeIncluded v "absolute" = some (decide (0 < n)) ∧
      (ShouldBeIncluded v "absolute" = some true ↔ 0 < n) := by
  have key : ShouldBeIncluded v "absolute" = some (decide (0 < n)) := by
    rw [shouldBeIncluded_of_details v d "absolute" h]
    simp [hd, bigNumber.Gt, bigNumber.toInt, bigNumber.Zero]
  refine ⟨key, ?_⟩
  rw [key]
  simp

theorem shouldBeIncluded_absolute_iff_pos_witness :
    (strategyWith (some { zeroDetails with TotalDebt := some 12 })).Details
        = some { zeroDetails with TotalDebt := some 12 } ∧
      ({ zeroDetails with TotalDebt := some 12 } : TExternalStrategyDetails).TotalDebt
        = some 12 ∧
      ShouldBeIncluded (strategyWith (some { zeroDetails with TotalDebt := some 12 }))
        "absolute" = some true :=
  ⟨rfl, rfl,
    ((shouldBeIncluded_absolute_iff_pos _ _ 12 rfl rfl).2).2 (by decide)⟩

/-- C5, as stated, fails: a detail block may hold a negative total debt (the
field is a signed arbitrary-precision integer); for total debt `-1` the answer
to "absolute" is false although the total debt is not zero. -/
theorem shouldBeIncluded_absolute_false_nonzero :
    (strategyWith (some negativeDebtDetails)).Details = some negativeDebtDetails ∧
      negativeDebtDetails.TotalDebt = some (-1) ∧
      ShouldBeIncluded (strategyWith (some negativeDebtDetails)) "absolute" = some false ∧
      ¬ ((-1 : Int) = 0) := by
  decide

/-- C5, amended: for a canonical strategy with a detail block, whatever integer
the total debt is, `ShouldBeIncluded` answers false to "absolute" exactly when
the total debt is zero or negative; hence, for a total debt that is not
negative, exactly when it is zero; and the answer is true for total debt 1. -/
theorem shouldBeIncluded_absolute_false_iff (v : TExternalStrategy)
    (d : TExternalStrategyDetails) (n : Int) (h : v.Details = some d)
    (hd : d.TotalDebt = some n) :
    (ShouldBeIncluded v "absolute" = some false ↔ n ≤ 0) ∧
      (0 ≤ n → (ShouldBeIncluded v "absolute" = some false ↔ n = 0)) ∧
      (n = 1 → ShouldBeIncluded v "absolute" = some true) := by
  have key : ShouldBeIncluded v "absolute" = some (decide (0 < n)) := by
    rw [shouldBeIncluded_of_details v d "absolute" h]
    simp [hd, bigNumber.Gt, bigNumber.toInt, bigNumber.Zero]
  rw [key]
  refine ⟨?_, ?_, ?_⟩
  · simp
  · intro h0
    simp
    omega
  · intro h1
    simp [h1]

theorem shouldBeIncluded_absolute_false_iff_witness :
    (strategyWith (some { zeroDetails with TotalDebt := some 1 })).Details
        = some { zeroDetails with TotalDebt := some 1 } ∧
      ({ zeroDetails with TotalDebt := some 1 } : TExternalStrategyDetails).TotalDebt
        = some 1 ∧
      ShouldBeIncluded (strategyWith (some { zeroDetails with TotalDebt := some 1 }))
        "absolute" = some true :=
  ⟨rfl, rfl, ((shouldBeIncluded_absolute_false_iff _ _ 1 rfl rfl).2).2 rfl⟩

/-- C6: for a condition that is none of "all", "absolute", "inQueue" and
"debtRatio", `ShouldBeIncluded` returns false on every canonical strategy, with
or without a detail block: the detail block is never read, so nothing can
fail. -/
theorem shouldBeIncluded_unknown_keyword (v : TExternalStrategy) (c : String)
    (h1 : c ≠ "all") (h2 : c ≠ "absolute") (h3 : c ≠ "inQueue") (h4 : c ≠ "debtRatio") :
    ShouldBeIncluded v c = some false := by
  simp [ShouldBeIncluded, andThen, h1, h2, h3, h4]

theorem shouldBeIncluded_unknown_keyword_witness :
    "unknown-keyword" ≠ "all" ∧ "unknown-keyword" ≠ "absolute" ∧
      "unknown-keyword" ≠ "inQueue" ∧ "unknown-keyword" ≠ "debtRatio" ∧
      ShouldBeIncluded (strategyWith none) "unknown-keyword" = some false :=
  ⟨by decide, by decide, by decide, by decide,
    shouldBeIncluded_unknown_keyword (strategyWith none) "unknown-keyword"
      (by decide) (by decide) (by decide) (by decide)⟩

/-- C7: `ShouldBeIncluded` answers true to "all" on every canonical strategy,
with or without a detail block; in particular on one with zero total debt, zero
debt ratio and the in-queue flag off. -/
theorem shouldBeIncluded_all (v : TExternalStrategy) :
    ShouldBeIncluded v "all" = some true ∧
      ShouldBeIncluded (strategyWith (some zeroDetails)) "all" = some true := by
  constructor <;> simp [ShouldBeIncluded]

/-- C8: for a canonical strategy with a detail block, `ShouldBeIncluded` returns
for "debtRatio", and what it returns is true exactly when the debt ratio of the
detail block is greater than zero: false for debt ratio 0 (the value of an
omitted debt ratio), true for debt ratio 1. -/
theorem shouldBeIncluded_debtRatio_iff_pos (v : TExternalStrategy)
    (d : TExternalStrategyDetails) (h : v.Details = some d) :
    ShouldBeIncluded v "debtRatio" = some (decide (0 < d.DebtRatio)) ∧
      (ShouldBeIncluded v "debtRatio" = some true ↔ 0 < d.DebtRatio) ∧
      (d.DebtRatio = 0 → ShouldBeIncluded v "debtRatio" = some false) ∧
      (d.DebtRatio = 1 → ShouldBeIncluded v "debtRatio" = some true) := by
  have key : ShouldBeIncluded v "debtRatio" = some (decide (0 < d.DebtRatio)) := by
    rw [shouldBeIncluded_of_details v d "debtRatio" h]
    simp
  rw [key]
  refine ⟨rfl, ?_, ?_, ?_⟩
  · simp
  · intro h0
    simp [h0]
  · intro h1
    simp [h1]

theorem shouldBeIncluded_debtRatio_iff_pos_witness :
    (strategyWith (some { zeroDetails with DebtRatio := 1 })).Details
        = some { zeroDetails with DebtRatio := 1 } ∧
      ShouldBeIncluded (strategyWith (some { zeroDetails with DebtRatio := 1 }))
        "debtRatio" = some true :=
  ⟨rfl, ((shouldBeIncluded_debtRatio_iff_pos _ _ rfl).2).2.2 rfl⟩

/-- C9: for a canonical strategy with a detail block, `ShouldBeIncluded` answers
to "inQueue" with the in-queue flag of the detail block; and on the record built
by `CreateExternalStrategy` from a raw observation it answers with the raw
in-withdrawal-queue flag. -/
theorem shouldBeIncluded_inQueue (hex : Address → String) (r : models.TStrategy)
    (v : TExternalStrategy) (d : TExternalStrategyDetails) (h : v.Details = some d) :
    ShouldBeIncluded v "inQueue" = some d.InQueue ∧
      ShouldBeIncluded (CreateExternalStrategy hex r) "inQueue" = some r.IsInQueue := by
  constructor
  · rw [shouldBeIncluded_of_details v d "inQueue" h]
    simp
  · rw [shouldBeIncluded_of_details (CreateExternalStrategy hex r) _ "inQueue" rfl]
    simp

theorem shouldBeIncluded_inQueue_witness :
    (strategyWith (some queuedDetails)).Details = some queuedDetails ∧
      ShouldBeIncluded (strategyWith (some queuedDetails)) "inQueue"
        = some queuedDetails.InQueue ∧
      ShouldBeIncluded (CreateExternalStrategy exampleHex queuedObservation) "inQueue"
        = some queuedObservation.IsInQueue :=
  ⟨rfl, shouldBeIncluded_inQueue exampleHex queuedObservation
    (strategyWith (some queuedDetails)) queuedDetails rfl⟩

/-! ## Totality of the conversion -/

/-- C10: `CreateExternalStrategy` returns a record for every raw observation, and
the record has a detail block.  Absent optional fields come out as defaults: an
empty display name leaves the declared name, an empty description stays empty,
an absent or zero performance fee, last-report timestamp or debt ratio gives 0,
and an absent or zero total debt, loss or gain is copied and reads as zero. -/
theorem createExternalStrategy_total (hex : Address → String) (r : models.TStrategy) :
    ∃ c d, CreateExternalStrategy hex r = c ∧ c.Details = some d ∧
      (r.DisplayName = "" → c.Name = r.Name) ∧
      (r.Description = "" → c.Description = "") ∧
      (r.LastTotalDebt = none ∨ r.LastTotalDebt = some 0 →
        d.TotalDebt = r.LastTotalDebt ∧ bigNumber.IsZero d.TotalDebt = true) ∧
      (r.LastTotalLoss = none ∨ r.LastTotalLoss = some 0 →
        d.TotalLoss = r.LastTotalLoss ∧ bigNumber.IsZero d.TotalLoss = true) ∧
      (r.LastTotalGain = none ∨ r.LastTotalGain = some 0 →
        d.TotalGain = r.LastTotalGain ∧ bigNumber.IsZero d.TotalGain = true) ∧
      (r.LastPerformanceFee = none ∨ r.LastPerformanceFee = some 0 →
        d.PerformanceFee = 0) ∧
      (r.LastReport = none ∨ r.LastReport = some 0 → d.LastReport = 0) ∧
      (r.LastDebtRatio = none ∨ r.LastDebtRatio = some 0 → d.DebtRatio = 0) := by
  refine ⟨CreateExternalStrategy hex r, _, rfl, rfl, ?_, ?_, ?_, ?_, ?_, ?_, ?_, ?_⟩
  · intro h
    simp [CreateExternalStrategy, h]
  · intro h
    simp [CreateExternalStrategy, h]
  · rintro (h | h) <;> simp [h, bigNumber.IsZero, bigNumber.toInt]
  · rintro (h | h) <;> simp [h, bigNumber.IsZero, bigNumber.toInt]
  · rintro (h | h) <;> simp [h, bigNumber.IsZero, bigNumber.toInt]
  · rintro (h | h) <;> simp [h, bigNumber.Uint64, bigNumber.toInt]
  · rintro (h | h) <;> simp [h, bigNumber.Uint64, bigNumber.toInt]
  · rintro (h | h) <;> simp [h, bigNumber.Uint64, bigNumber.toInt]

theorem createExternalStrategy_total_witness :
    (CreateExternalStrategy exampleHex emptyObservation).Details
        = some
          { TotalDebt := none
            TotalLoss := none
            TotalGain := none
            PerformanceFee := 0
            LastReport := 0
            DebtRatio := 0
            InQueue := false } ∧
      (CreateExternalStrategy exampleHex emptyObservation).Name = "StrategyCurve" ∧
      (CreateExternalStrategy exampleHex emptyObservation).Description = "" ∧
      ∃ c d, CreateExternalStrategy exampleHex emptyObservation = c ∧ c.Details = some d ∧
        (emptyObservation.DisplayName = "" → c.Name = emptyObservation.Name) ∧
        (emptyObservation.Description = "" → c.Description = "") ∧
        (emptyObservation.LastTotalDebt = none ∨ emptyObservation.LastTotalDebt = some 0 →
          d.TotalDebt = emptyObservation.LastTotalDebt ∧
            bigNumber.IsZero d.TotalDebt = true) ∧
        (emptyObservation.LastTotalLoss = none ∨ emptyObservation.LastTotalLoss = some 0 →
          d.TotalLoss = emptyObservation.LastTotalLoss ∧
            bigNumber.IsZero d.TotalLoss = true) ∧
        (emptyObservation.LastTotalGain = none ∨ emptyObservation.LastTotalGain = some 0 →
          d.TotalGain = emptyObservation.LastTotalGain ∧
            bigNumber.IsZero d.TotalGain = true) ∧
        (emptyObservation.LastPerformanceFee = none ∨
            emptyObservation.LastPerformanceFee = some 0 → d.PerformanceFee = 0) ∧
        (emptyObservation.LastReport = none ∨ emptyObservation.LastReport = some 0 →
          d.LastReport = 0) ∧
        (emptyObservation.LastDebtRatio = none ∨ emptyObservation.LastDebtRatio = some 0 →
          d.DebtRatio = 0) :=
  ⟨by decide, by decide, by decide, createExternalStrategy_total exampleHex emptyObservation⟩

/-! ## Name and detail block of the conversion -/

/-- C11: the name of the record built by `CreateExternalStrategy` is the curated
display name when that is not empty, and the declared name otherwise. -/
theorem createExternalStrategy_name (hex : Address → String) (r : models.TStrategy) :
    (r.DisplayName ≠ "" → (CreateExternalStrategy hex r).Name = r.DisplayName) ∧
      (r.DisplayName = "" → (CreateExternalStrategy hex r).Name = r.Name) := by
  constructor
  · intro h
    simp [CreateExternalStrategy, h]
  · intro h
    simp [CreateExternalStrategy, h]

theorem createExternalStrategy_name_witness :
    (CreateExternalStrategy exampleHex curatedObservation).Name = "Curve Boost" ∧
      (CreateExternalStrategy exampleHex emptyObservation).Name = "StrategyCurve" :=
  ⟨(createExternalStrategy_name exampleHex curatedObservation).1 (by decide),
    (createExternalStrategy_name exampleHex emptyObservation).2 (by decide)⟩

/-- C12: when the performance fee, the last-report timestamp and the debt ratio
of the raw observation are integers from 0 to `2 ^ 64 - 1`, the detail block
built by `CreateExternalStrategy` holds exactly these three numbers. -/
theorem createExternalStrategy_narrowing_exact (hex : Address → String)
    (r : models.TStrategy) (fee report ratio : Int)
    (hfee : r.LastPerformanceFee = some fee) (hreport : r.LastReport = some report)
    (hratio : r.LastDebtRatio = some ratio)
    (hfee0 : 0 ≤ fee) (hfee1 : fee < 2 ^ 64)
    (hreport0 : 0 ≤ report) (hreport1 : report < 2 ^ 64)
    (hratio0 : 0 ≤ ratio) (hratio1 : ratio < 2 ^ 64) :
    ∃ d, (CreateExternalStrategy hex r).Details = some d ∧
      (d.PerformanceFee : Int) = fee ∧ (d.LastReport : Int) = report ∧
      (d.DebtRatio : Int) = ratio := by
  have narrow : ∀ n : Int, 0 ≤ n → n < 2 ^ 64 →
      ((bigNumber.Uint64 (some n) : Nat) : Int) = n := by
    intro n h0 h1
    simp only [bigNumber.Uint64, bigNumber.toInt]
    omega
  refine ⟨_, rfl, ?_, ?_, ?_⟩
  · simpa [hfee] using narrow fee hfee0 hfee1
  · simpa [hreport] using narrow report hreport0 hreport1
  · simpa [hratio] using narrow ratio hratio0 hratio1

theorem createExternalStrategy_narrowing_exact_witness :
    ∃ d, (CreateExternalStrategy exampleHex reportedObservation).Details = some d ∧
      (d.PerformanceFee : Int) = 1000 ∧ (d.LastReport : Int) = 1700000000 ∧
      (d.DebtRatio : Int) = 2500 :=
  createExternalStrategy_narrowing_exact exampleHex reportedObservation 1000 1700000000 2500
    rfl rfl rfl (by decide) (by decide) (by decide) (by decide) (by decide) (by decide)

/-- C13: the total debt, total loss and total gain of the detail block built by
`CreateExternalStrategy` are the raw observation's last total debt, loss and gain,
unchanged whatever their size; a debt of `2 ^ 64 + 5` comes out as
`2 ^ 64 + 5`. -/
theorem createExternalStrategy_totals_verbatim (hex : Address → String)
    (r : models.TStrategy) :
    (∃ d, (CreateExternalStrategy hex r).Details = some d ∧
      d.TotalDebt = r.LastTotalDebt ∧ d.TotalLoss = r.LastTotalLoss ∧
      d.TotalGain = r.LastTotalGain) ∧
    (∃ d, (CreateExternalStrategy hex reportedObservation).Details = some d ∧
      d.TotalDebt = some (2 ^ 64 + 5) ∧ d.TotalLoss = some 3 ∧
      d.TotalGain = some (2 ^ 70)) :=
  ⟨⟨_, rfl, rfl, rfl, rfl⟩, ⟨_, rfl, rfl, rfl, rfl⟩⟩

/-! ## The conversion followed by the predicate -/

/-- C15: the record built by `CreateExternalStrategy` always has a detail block,
so `ShouldBeIncluded` returns a boolean on it for every condition: it never
stops on an absent detail block. -/
theorem shouldBeIncluded_createExternalStrategy_returns (hex : Address → String)
    (r : models.TStrategy) (c : String) :
    (CreateExternalStrategy hex r).Details ≠ none ∧
      ∃ b, ShouldBeIncluded (CreateExternalStrategy hex r) c = some b := by
  refine ⟨?_, _, shouldBeIncluded_of_details (CreateExternalStrategy hex r) _ c rfl⟩
  simp [CreateExternalStrategy]

/-- C16: for a raw observation with an empty status override, the retired flag
not set and a total debt that is not negative, the record built by
`CreateExternalStrategy` has status "unallocated" exactly when `ShouldBeIncluded`
answers false to "absolute", and status "active" exactly when it answers true. -/
theorem status_agrees_with_absolute (hex : Address → String) (r : models.TStrategy)
    (n : Int) (hs : r.Status = "") (hr : r.IsRetired = false)
    (hd : r.LastTotalDebt = some n) (hn : 0 ≤ n) :
    ((CreateExternalStrategy hex r).Status = "unallocated" ↔
        ShouldBeIncluded (CreateExternalStrategy hex r) "absolute" = some false) ∧
      ((CreateExternalStrategy hex r).Status = "active" ↔
        ShouldBeIncluded (CreateExternalStrategy hex r) "absolute" = some true) := by
  have hincl : ShouldBeIncluded (CreateExternalStrategy hex r) "absolute"
      = some (decide (0 < n)) := by
    rw [shouldBeIncluded_of_details (CreateExternalStrategy hex r) _ "absolute" rfl]
    simp [hd, bigNumber.Gt, bigNumber.toInt, bigNumber.Zero]
  have hstatus : (CreateExternalStrategy hex r).Status
      = if n = 0 then "unallocated" else "active" := by
    simp [CreateExternalStrategy, hs, hr, hd, bigNumber.IsZero, bigNumber.toInt,
      models.StrategyStatusUnallocated, models.StrategyStatusActive]
  rw [hincl, hstatus]
  by_cases h0 : n = 0
  · subst h0
    simp
  · have hpos : 0 < n := by omega
    simp [h0, hpos]

theorem status_agrees_with_absolute_witness :
    ((CreateExternalStrategy exampleHex reportedObservation).Status = "unallocated" ↔
        ShouldBeIncluded (CreateExternalStrategy exampleHex reportedObservation) "absolute"
          = some false) ∧
      ((CreateExternalStrategy exampleHex reportedObservation).Status = "active" ↔
        ShouldBeIncluded (CreateExternalStrategy exampleHex reportedObservation) "absolute"
          = some true) :=
  status_agrees_with_absolute exampleHex reportedObservation (2 ^ 64 + 5) rfl rfl rfl
    (by decide)

/-- C17: the status of the record built by `CreateExternalStrategy` is never the
empty string; with an empty status override it is one of "not_active",
"unallocated" and "active". -/
theorem createExternalStrategy_status_nonempty (hex : Address → String)
    (r : models.TStrategy) :
    (CreateExternalStrategy hex r).Status ≠ "" ∧
      (r.Status = "" →
        (CreateExternalStrategy hex r).Status = "not_active" ∨
        (CreateExternalStrategy hex r).Status = "unallocated" ∨
        (CreateExternalStrategy hex r).Status = "active") := by
  have hlit : r.Status = "" →
      (CreateExternalStrategy hex r).Status = "not_active" ∨
      (CreateExternalStrategy hex r).Status = "unallocated" ∨
      (CreateExternalStrategy hex r).Status = "active" := by
    intro hs
    cases hr : r.IsRetired
    · cases hz : bigNumber.IsZero r.LastTotalDebt
      · right; right
        simp [CreateExternalStrategy, hs, hr, hz, models.StrategyStatusActive]
      · right; left
        simp [CreateExternalStrategy, hs, hr, hz, models.StrategyStatusUnallocated]
    · left
      simp [CreateExternalStrategy, hs, hr, models.StrategyStatusNotActive]
  refine ⟨?_, hlit⟩
  by_cases hs : r.Status = ""
  · rcases hlit hs with h | h | h <;> rw [h] <;> decide
  · simp [CreateExternalStrategy, hs]

/-! ## JSON encoding of the detail block -/

/-- The members of the JSON object of a detail block: the five fields that are
always written, then the debt ratio when it is not zero. -/
theorem marshalJSON_members (d : TExternalStrategyDetails) :
    d.marshalJSON =
      [("totalDebt", JSONValue.ofBigInt d.TotalDebt),
        ("totalLoss", JSONValue.ofBigInt d.TotalLoss),
        ("totalGain", JSONValue.ofBigInt d.TotalGain),
        ("performanceFee", JSONValue.number d.PerformanceFee),
        ("lastReport", JSONValue.number d.LastReport)]
      ++ (if d.DebtRatio = 0 then [] else [("debtRatio", JSONValue.number d.DebtRatio)]) := by
  have h1 : parseTag "totalDebt" = ("totalDebt", []) := by decide
  have h2 : parseTag "totalLoss" = ("totalLoss", []) := by decide
  have h3 : parseTag "totalGain" = ("totalGain", []) := by decide
  have h4 : parseTag "performanceFee" = ("performanceFee", []) := by decide
  have h5 : parseTag "lastReport" = ("lastReport", []) := by decide
  have h6 : parseTag "debtRatio,omitempty" = ("debtRatio", ["omitempty"]) := by decide
  by_cases hz : d.DebtRatio = 0
  · simp [TExternalStrategyDetails.marshalJSON, TExternalStrategyDetails.fields, marshalField,
      h1, h2, h3, h4, h5, h6, hz, isEmptyValue]
  · simp [TExternalStrategyDetails.marshalJSON, TExternalStrategyDetails.fields, marshalField,
      h1, h2, h3, h4, h5, h6, hz, isEmptyValue]

/-- C14: the JSON object written for a detail block has no member for `InQueue`:
every member is named by one of the six other fields, and two detail blocks that
differ only in their in-queue flag are written the same. -/
theorem marshalJSON_hides_inQueue (d : TExternalStrategyDetails) (b : Bool) :
    ({ d with InQueue := b } : TExternalStrategyDetails).marshalJSON = d.marshalJSON ∧
      (∀ m ∈ d.marshalJSON,
        m.1 ∈ ["totalDebt", "totalLoss", "totalGain", "performanceFee", "lastReport",
          "debtRatio"]) ∧
      (∀ m ∈ d.marshalJSON, m.1 ≠ "InQueue" ∧ m.1 ≠ "inQueue") := by
  have keys : ∀ m ∈ d.marshalJSON,
      m.1 ∈ ["totalDebt", "totalLoss", "totalGain", "performanceFee", "lastReport",
        "debtRatio"] := by
    intro m hm
    rw [marshalJSON_members] at hm
    by_cases hz : d.DebtRatio = 0
    · simp [hz] at hm
      rcases hm with h | h | h | h | h <;> simp [h]
    · simp [hz] at hm
      rcases hm with h | h | h | h | h | h <;> simp [h]
  refine ⟨?_, keys, ?_⟩
  · rw [marshalJSON_members, marshalJSON_members]
  · intro m hm
    have hk := keys m hm
    constructor
    · intro h
      rw [h] at hk
      exact absurd hk (by decide)
    · intro h
      rw [h] at hk
      exact absurd hk (by decide)

/-! ## The ARBITRUM record -/

/-- C18: in the ARBITRUM record, every extra vault names as its registry an
address (a twenty-byte value, so hex letter case plays no part) that is the
address of an entry of `Registries`, and the vault's block number is at least
the block of that entry. -/
theorem arbitrum_extraVaults_registry (hex : Address → String) (coin : Address)
    (base : String) :
    ∀ v ∈ (env.ARBITRUM hex coin base).ExtraVaults,
      ∃ reg ∈ (env.ARBITRUM hex coin base).Registries,
        reg.Address = v.RegistryAddress ∧ reg.Block ≤ v.BlockNumber := by
  simp only [env.ARBITRUM]
  decide

theorem arbitrum_extraVaults_registry_witness :
    earliestExtraVault ∈ (env.ARBITRUM exampleHex ⟨0⟩ "").ExtraVaults ∧
      ∃ reg ∈ (env.ARBITRUM exampleHex ⟨0⟩ "").Registries,
        reg.Address = earliestExtraVault.RegistryAddress ∧
          reg.Block ≤ earliestExtraVault.BlockNumber :=
  ⟨by decide,
    arbitrum_extraVaults_registry exampleHex ⟨0⟩ "" earliestExtraVault (by decide)⟩

/-- C19: in the ARBITRUM record the network ID is 42161, and the chain
identifiers written elsewhere in the record agree with it: the chain ID of the
native coin, the number in the coin's icon path, and the chain ID of every extra
vault. -/
theorem arbitrum_chain_ids_agree (hex : Address → String) (coin : Address)
    (base : String) :
    (env.ARBITRUM hex coin base).ID = 42161 ∧
      (env.ARBITRUM hex coin base).Coin.ChainID = (env.ARBITRUM hex coin base).ID ∧
      (env.ARBITRUM hex coin base).Coin.Icon
        = base ++ strconv.FormatUint (env.ARBITRUM hex coin base).ID 10 ++ "/"
          ++ hex coin ++ "/logo-128.png" ∧
      ∀ v ∈ (env.ARBITRUM hex coin base).ExtraVaults,
        v.ChainID = (env.ARBITRUM hex coin base).ID := by
  refine ⟨rfl, rfl, rfl, ?_⟩
  simp only [env.ARBITRUM]
  decide

/-- C20: in the ARBITRUM record no address is both included and suppressed by
hand: no extra token is an ignored token, and no extra vault has a blacklisted
address (addresses being twenty-byte values, hex letter case plays no part). -/
theorem arbitrum_included_not_suppressed (hex : Address → String) (coin : Address)
    (base : String) :
    (∀ t ∈ (env.ARBITRUM hex coin base).ExtraTokens,
        t ∉ (env.ARBITRUM hex coin base).IgnoredTokens) ∧
      (∀ v ∈ (env.ARBITRUM hex coin base).ExtraVaults,
        v.Address ∉ (env.ARBITRUM hex coin base).BlacklistedVaults) := by
  simp only [env.ARBITRUM]
  decide

end Ydaemon
